import Mathlib

/-!
Verification development for the IWBF Player Assessment Forms Generator
(`app.py`): a Streamlit batch pipeline that fills two PDF form templates
(via pikepdf) from a multi-sheet spreadsheet and packs the results into a
ZIP archive.

The embedding below follows `app.py` closely:

* `AcroFormDict` / `Doc` / `PdfBytes` model the observable part of a
  pikepdf document for this program: the `/AcroForm` dictionary with its
  `NeedAppearances` flag and its named form fields carrying `/V` values.
  `saveDoc` / `openDoc` model `Pdf.save` into a buffer and `Pdf.open` of
  that buffer (pikepdf round-trips the object graph).
* `fill_and_get_pdf_bytes` embeds the function of the same name
  (app.py lines 44-104).
* `format_date`, `Cell`, `parseSlashDate` embed `format_date`
  (lines 15-23) together with the relevant behaviour of
  `pd.to_datetime` on the cell values this program meets.
* `processRow` / `processRows` / `runSheets` / `runBatch` embed the
  generation loop (lines 139-221): skip branch, the two fills and
  archive writes, the per-row `except` branch, the required-column
  check with `st.stop`, and the progress counter.
* `DocStore` / `fillInStore` re-embed `fill_and_get_pdf_bytes` over an
  explicit object heap, so that the frame property "filling never
  mutates the cached template" (the point of the buffer round-trip at
  lines 53-56) is a real statement about heap locations.
-/

/-- The `/AcroForm` dictionary of a document: its `NeedAppearances`
boolean and its form fields, as a list of (fully qualified name, `/V`
value) pairs (`pdf.get_form().get_fields()` exposes them by name). -/
structure AcroFormDict where
  needAppearances : Bool
  fields : List (String × String)
deriving DecidableEq

/-- A pikepdf document, restricted to what this program observes and
mutates: the optional `/AcroForm` dictionary hanging off `pdf.root`. -/
structure Doc where
  acroForm : Option AcroFormDict
deriving DecidableEq

/-- Serialized PDF bytes. pikepdf's `save` followed by `open` reproduces
the object graph, so the bytes are modelled by the graph they encode. -/
structure PdfBytes where
  graph : Doc
deriving DecidableEq

/-- `pdf.save(buffer)`: serialize a document (app.py lines 54, 99). -/
def saveDoc (d : Doc) : PdfBytes := ⟨d⟩

/-- `pikepdf.Pdf.open(buffer)`: parse serialized bytes (line 56). -/
def openDoc (b : PdfBytes) : Doc := b.graph

/-- The names of the document's form fields
(`form_fields.get_fields()` keys, line 71). -/
def fieldNames (d : Doc) : List String :=
  match d.acroForm with
  | some f => f.fields.map Prod.fst
  | none => []

/-- `field.V = pikepdf.String(str(value))` (line 73): set the value of
the named field, leaving every other field untouched. -/
def setFieldVal (d : Doc) (name v : String) : Doc :=
  match d.acroForm with
  | none => d
  | some f =>
    ⟨some ⟨f.needAppearances, f.fields.map fun p => if p.1 = name then (p.1, v) else p⟩⟩

/-- Lines 89-95: set `NeedAppearances = True` on the form root, creating
the `/AcroForm` dictionary first when it is absent. (In
`fill_and_get_pdf_bytes` the `else` branch is unreachable, because line
65 already raised when `/AcroForm` was missing.) -/
def setNeedAppearancesRoot (d : Doc) : Doc :=
  match d.acroForm with
  | some f => ⟨some ⟨true, f.fields⟩⟩
  | none => ⟨some ⟨true, []⟩⟩

/-- The field-filling loop (lines 70-85): for each (name, value) pair,
set the field when the name is among the form's fields; otherwise do
nothing -- the `st.warning` for a missing field (lines 84-85) is
commented out in the source, so no warning is recorded in either branch.
The second component collects the warnings the loop emits (none). -/
def fillLoop : Doc → List (String × String) → Doc × List String
  | pdf, [] => (pdf, [])
  | pdf, p :: rest =>
    if (fieldNames pdf).contains p.1 then
      fillLoop (setFieldVal pdf p.1 p.2) rest
    else
      fillLoop pdf rest

/-- `fill_and_get_pdf_bytes` (lines 44-104): round-trip the cached
template through a buffer to obtain an independent copy, raise when the
copy has no `/AcroForm` (line 65; the message is re-wrapped by the
`except` at lines 102-104), otherwise run the filling loop, set
`NeedAppearances` on the form root and serialize. Returns the bytes and
the warnings emitted while filling. -/
def fill_and_get_pdf_bytes (pdf_template_obj : Doc)
    (field_values : List (String × String)) :
    Except String (PdfBytes × List String) :=
  let pdf := openDoc (saveDoc pdf_template_obj)
  if pdf.acroForm.isNone then
    Except.error
      "Failed to fill PDF: PDF does not contain an AcroForm dictionary for form fields."
  else
    let filled := fillLoop pdf field_values
    Except.ok (saveDoc (setNeedAppearancesRoot filled.1), filled.2)

/-- A proleptic calendar date as pandas hands it back (Timestamp fields). -/
structure PDate where
  day : Nat
  month : Nat
  year : Nat
deriving DecidableEq

/-- A spreadsheet cell as it reaches the loop after `pd.read_excel`:
missing cells are NaN (`na`), text cells are strings, date-typed cells
are Timestamps. -/
inductive Cell where
  | na
  | str (s : String)
  | date (d : PDate)
deriving DecidableEq

/-- Zero-pad to two digits, as `strftime` does for `%d` and `%m`. -/
def pad2 (n : Nat) : String :=
  if n < 10 then "0" ++ toString n else toString n

/-- Zero-pad to four digits, as `strftime` does for `%Y`. -/
def pad4 (n : Nat) : String :=
  if n < 10 then "000" ++ toString n
  else if n < 100 then "00" ++ toString n
  else if n < 1000 then "0" ++ toString n
  else toString n

/-- Split a character list at every `/`. -/
def splitSlash : List Char → List Char → List (List Char)
  | [], acc => [acc.reverse]
  | c :: cs, acc =>
    if c = '/' then acc.reverse :: splitSlash cs []
    else splitSlash cs (c :: acc)

/-- Digits of a character list read as a base-10 numeral, when the list
is nonempty and all digits. -/
def parseNatChars (l : List Char) : Option Nat :=
  if l.isEmpty then none
  else if l.all Char.isDigit then
    some (l.foldl (fun a c => 10 * a + (c.toNat - 48)) 0)
  else none

/-- Model of `pd.to_datetime` on the slash-separated date strings this
program meets (`"01/02/2024"`, `"05/10/1995"`, ...): with pandas'
default `dayfirst=False`, an `a/b/y` string is read month-first
(month `a`, day `b`) whenever that is a possible date, and day-first
only as the fallback when `a` cannot be a month; any other string is a
parse failure. Strings in other date formats are out of the model's
scope and are treated as parse failures. -/
def parseSlashDate (s : String) : Option PDate :=
  match (splitSlash s.toList []).map parseNatChars with
  | [some a, some b, some y] =>
    if 1 ≤ a ∧ a ≤ 12 ∧ 1 ≤ b ∧ b ≤ 31 then some ⟨b, a, y⟩
    else if 1 ≤ b ∧ b ≤ 12 ∧ 1 ≤ a ∧ a ≤ 31 then some ⟨a, b, y⟩
    else none
  | _ => none

/-- `pd.to_datetime` on a cell: a Timestamp cell is already a date; a
string cell is parsed (see `parseSlashDate`); NaN yields NaT, whose
`strftime` raises -- modelled as a parse failure, which sends
`format_date` to its fallback branch, exactly as the code's
`except` does. -/
def pdToDatetime : Cell → Option PDate
  | Cell.date d => some d
  | Cell.str s => parseSlashDate s
  | Cell.na => none

/-- Python's `str()` on a cell value: `str(nan)` is `"nan"`, a string is
itself, a Timestamp prints as `YYYY-MM-DD 00:00:00`. -/
def cellStr : Cell → String
  | Cell.na => "nan"
  | Cell.str s => s
  | Cell.date d => pad4 d.year ++ "-" ++ pad2 d.month ++ "-" ++ pad2 d.day ++ " 00:00:00"

/-- `format_date` (app.py lines 15-23): try
`pd.to_datetime(date).strftime("%d-%m-%Y")`; on any exception fall back
to `str(date)`. -/
def format_date (date : Cell) : String :=
  match pdToDatetime date with
  | some d => pad2 d.day ++ "-" ++ pad2 d.month ++ "-" ++ pad4 d.year
  | none => cellStr date

/-- A spreadsheet row: the cells by column name. -/
def Row : Type := List (String × Cell)

/-- `row.get(col, default)` / `row[col]`: the cell under a column name,
or the default when the column is absent (the used columns are
guaranteed present by the required-column validation). -/
def rowGetD (row : Row) (col : String) (dflt : Cell) : Cell :=
  match List.find? (fun p => p.1 == col) row with
  | some p => p.2
  | none => dflt

/-- `pd.isna` on a cell. -/
def isna : Cell → Bool
  | Cell.na => true
  | _ => false

/-- `str(row.get("name", "N/A"))` (line 161). -/
def playerNameOf (row : Row) : String := cellStr (rowGetD row "name" (Cell.str "N/A"))

/-- `str(row.get("number", "N/A"))` (line 162). -/
def playerNumberOf (row : Row) : String := cellStr (rowGetD row "number" (Cell.str "N/A"))

/-- The skip message of line 166 (stray parenthesis included verbatim). -/
def skipMessage (idx : Nat) (player_name sheet : String) : String :=
  "Skipping row " ++ toString (idx + 2) ++ " (name: '" ++ player_name ++
    "') in sheet '" ++ sheet ++ "') due to missing 'name' or 'number'."

/-- The per-row failure message of line 214: names the player, the sheet
and the underlying exception text. -/
def errorMessage (player_name sheet e : String) : String :=
  "Error processing '" ++ player_name ++ "' from sheet '" ++ sheet ++ "': " ++ e

/-- The Worksheet value map (lines 175-188): the six data columns plus
the same six under an `x` prefix (the template's second page). -/
def fieldValuesWorksheet (row : Row) : List (String × String) :=
  [("number", playerNumberOf row),
   ("proposed-class", cellStr (rowGetD row "proposed-class" (Cell.str ""))),
   ("name", playerNameOf row),
   ("country", cellStr (rowGetD row "country" (Cell.str ""))),
   ("date", format_date (rowGetD row "date" (Cell.str ""))),
   ("competition", cellStr (rowGetD row "competition" (Cell.str ""))),
   ("xnumber", playerNumberOf row),
   ("xproposed-class", cellStr (rowGetD row "proposed-class" (Cell.str ""))),
   ("xname", playerNameOf row),
   ("xcountry", cellStr (rowGetD row "country" (Cell.str ""))),
   ("xdate", format_date (rowGetD row "date" (Cell.str ""))),
   ("xcompetition", cellStr (rowGetD row "competition" (Cell.str "")))]

/-- The Assessment value map (lines 199-203). -/
def fieldValuesAssessment (row : Row) : List (String × String) :=
  [("name", playerNameOf row),
   ("country", cellStr (rowGetD row "country" (Cell.str ""))),
   ("dob", format_date (rowGetD row "dob" (Cell.str "")))]

/-- The archive path of a row's Worksheet PDF (line 193). -/
def worksheetPath (sheet player_name : String) : String :=
  sheet ++ "/Stages 2C and 3/" ++ player_name ++ "-Worksheet-Stages-2C-and-3.pdf"

/-- The archive path of a row's Assessment PDF (line 208). -/
def assessmentPath (sheet player_name : String) : String :=
  sheet ++ "/Stages 2AB/" ++ player_name ++ "-Assessment-Form-Stages-2AB.pdf"

/-- The mutable state of the generation loop: the ZIP archive entries
(in write order), the `failed_items` list, and `generated_pdfs_count`. -/
structure BatchState where
  archive : List (String × PdfBytes)
  failedItems : List String
  generatedPdfsCount : Nat
deriving DecidableEq

/-- One iteration of `for index, row in df.iterrows()` (lines 160-218).
The skip branch (165-171) records a message and advances the counter by
2; otherwise the Worksheet is filled and written (+1), then the
Assessment (+1); any exception while filling either document falls into
the `except` branch (213-218), which appends one error message and adds
2 to the counter -- on top of the 1 already added when the Worksheet had
succeeded. -/
def processRow (wsTemplate asTemplate : Doc) (sheet : String) (idx : Nat)
    (row : Row) (st : BatchState) : BatchState :=
  let player_name := playerNameOf row
  if isna (rowGetD row "name" Cell.na) || isna (rowGetD row "number" Cell.na) then
    { st with
      failedItems := st.failedItems ++ [skipMessage idx player_name sheet],
      generatedPdfsCount := st.generatedPdfsCount + 2 }
  else
    match fill_and_get_pdf_bytes wsTemplate (fieldValuesWorksheet row) with
    | Except.error e =>
      { st with
        failedItems := st.failedItems ++ [errorMessage player_name sheet e],
        generatedPdfsCount := st.generatedPdfsCount + 2 }
    | Except.ok wres =>
      let st1 : BatchState :=
        { st with
          archive := st.archive ++ [(worksheetPath sheet player_name, wres.1)],
          generatedPdfsCount := st.generatedPdfsCount + 1 }
      match fill_and_get_pdf_bytes asTemplate (fieldValuesAssessment row) with
      | Except.error e =>
        { st1 with
          failedItems := st1.failedItems ++ [errorMessage player_name sheet e],
          generatedPdfsCount := st1.generatedPdfsCount + 2 }
      | Except.ok ares =>
        { st1 with
          archive := st1.archive ++ [(assessmentPath sheet player_name, ares.1)],
          generatedPdfsCount := st1.generatedPdfsCount + 1 }

/-- The row loop of one sheet, threading the positional index. -/
def processRows (wsTemplate asTemplate : Doc) (sheet : String) :
    Nat → List Row → BatchState → BatchState
  | _, [], st => st
  | idx, r :: rest, st =>
    processRows wsTemplate asTemplate sheet (idx + 1) rest
      (processRow wsTemplate asTemplate sheet idx r st)

/-- One sheet of the uploaded workbook: its name, its column set, and
its rows in order. -/
structure Sheet where
  sheetName : String
  columns : List String
  rows : List Row

/-- The required column set (line 155). -/
def requiredColumns : List String :=
  ["number", "proposed-class", "name", "country", "date", "competition", "dob"]

/-- `all(col in df.columns for col in required_columns)` (line 156). -/
def validColumns (sh : Sheet) : Bool :=
  requiredColumns.all (fun c => sh.columns.contains c)

/-- A finished run: the final loop state, and the sheet name on which
`st.stop()` aborted the run (line 158) if validation failed. -/
structure RunResult where
  state : BatchState
  abortedSheet : Option String
deriving DecidableEq

/-- The sheet loop (lines 153-218): validate each sheet's columns before
touching its rows; a failed validation stops the whole run on the spot
(`st.stop()`), leaving the state as it was -- earlier sheets processed,
no row of the offending sheet and nothing after it. -/
def runSheets (wsTemplate asTemplate : Doc) :
    List Sheet → BatchState → RunResult
  | [], st => ⟨st, none⟩
  | sh :: rest, st =>
    if validColumns sh then
      runSheets wsTemplate asTemplate rest
        (processRows wsTemplate asTemplate sh.sheetName 0 sh.rows st)
    else ⟨st, some sh.sheetName⟩

/-- `total_pdfs_to_generate` (lines 144-146): `2` per row, summed over
all sheets before any processing. -/
def totalPdfsToGenerate (sheets : List Sheet) : Nat :=
  sheets.foldl (fun acc sh => acc + sh.rows.length * 2) 0

/-- The loop state before the first row: empty archive, empty failure
list, counter at `0` (lines 135-137, 149). -/
def initialState : BatchState := ⟨[], [], 0⟩

/-- The whole generation pass: the sheet loop from the initial state,
paired with the progress denominator fixed beforehand. -/
def runBatch (wsTemplate asTemplate : Doc) (sheets : List Sheet) :
    RunResult × Nat :=
  (runSheets wsTemplate asTemplate sheets initialState,
   totalPdfsToGenerate sheets)

/-- Zip entry lookup by path. -/
def archiveLookup (arch : List (String × PdfBytes)) (p : String) : Option PdfBytes :=
  (List.find? (fun e => e.1 == p) arch).map Prod.snd

/-- The `/V` value of a named field in serialized bytes. -/
def pdfFieldValue (b : PdfBytes) (n : String) : Option String :=
  match b.graph.acroForm with
  | some f => (List.find? (fun q => q.1 == n) f.fields).map Prod.snd
  | none => none

/-- The field (name, value) pairs one resolves on a document. -/
def resolvedFields (d : Doc) : List (String × String) :=
  match d.acroForm with
  | some f => f.fields
  | none => []

/-! ### The object heap

`st.cache_resource` keeps the two template `Pdf` objects alive across
fills, and pikepdf objects are mutable, so the isolation property
"filling never mutates the cached template" is a statement about heap
locations. `DocStore` makes the heap explicit: documents live at
integer locations, `fillInStore` is `fill_and_get_pdf_bytes` re-read as
heap operations with the template at a location and the buffer round-trip
allocating a fresh copy that all mutations target. -/

/-- The heap of live pikepdf documents: a location is an index. -/
structure DocStore where
  docs : List Doc
deriving DecidableEq

/-- The document at a location, if the location is live. -/
def storeGet (s : DocStore) (i : Nat) : Option Doc := s.docs[i]?

/-- Overwrite the document at a live location (in-place mutation). -/
def storeSet (s : DocStore) (i : Nat) (d : Doc) : DocStore := ⟨s.docs.set i d⟩

/-- One iteration of the filling loop as a heap mutation of the clone at
location `cid` (lines 70-85). -/
def fillStep (cid : Nat) (s : DocStore) (p : String × String) : DocStore :=
  match storeGet s cid with
  | none => s
  | some d =>
    if (fieldNames d).contains p.1 then storeSet s cid (setFieldVal d p.1 p.2)
    else s

/-- `fill_and_get_pdf_bytes` over the explicit heap: read the cached
template at `tid`, allocate its buffer round-trip copy at a fresh
location, raise when the copy has no `/AcroForm`, otherwise run the
loop and the `NeedAppearances` write against the fresh location only,
and serialize it. The template location is never written. -/
def fillInStore (s : DocStore) (tid : Nat)
    (field_values : List (String × String)) :
    DocStore × Except String (PdfBytes × List String) :=
  match storeGet s tid with
  | none => (s, Except.error "Failed to fill PDF: invalid document")
  | some tmpl =>
    let cid := s.docs.length
    let s1 : DocStore := ⟨s.docs ++ [openDoc (saveDoc tmpl)]⟩
    if (openDoc (saveDoc tmpl)).acroForm.isNone then
      (s1, Except.error
        "Failed to fill PDF: PDF does not contain an AcroForm dictionary for form fields.")
    else
      let s2 := field_values.foldl (fillStep cid) s1
      match storeGet s2 cid with
      | none => (s2, Except.error "Failed to fill PDF: invalid document")
      | some d2 =>
        (storeSet s2 cid (setNeedAppearancesRoot d2),
         Except.ok (saveDoc (setNeedAppearancesRoot d2), []))

/-- N successive fills against the same cached template location. -/
def fillRepeatedly (tid : Nat) :
    List (List (String × String)) → DocStore → DocStore
  | [], s => s
  | fvs :: rest, s => fillRepeatedly tid rest (fillInStore s tid fvs).1

/-! ### Concrete templates and inputs

The two templates of the repository (the field sets come from the value
maps the code writes into them, spec section 6), and the spec's example
inputs. -/

/-- The Worksheet template's field names: the six data fields and their
`x`-prefixed duplicates. -/
def worksheetFieldNames : List String :=
  ["number", "proposed-class", "name", "country", "date", "competition",
   "xnumber", "xproposed-class", "xname", "xcountry", "xdate", "xcompetition"]

/-- A Worksheet template: an `/AcroForm` with the twelve fields, blank. -/
def worksheetTemplateDoc : Doc :=
  ⟨some ⟨false, worksheetFieldNames.map (fun n => (n, ""))⟩⟩

/-- An Assessment template: an `/AcroForm` with `name`, `country`, `dob`. -/
def assessmentTemplateDoc : Doc :=
  ⟨some ⟨false, [("name", ""), ("country", ""), ("dob", "")]⟩⟩

/-- A document with no `/AcroForm` dictionary at all. -/
def noFormDoc : Doc := ⟨none⟩

/-- The spec's example row (section 8's scenario). -/
def janeRow : Row :=
  [("number", Cell.str "4"), ("proposed-class", Cell.str "1.0"),
   ("name", Cell.str "Jane Doe"), ("country", Cell.str "USA"),
   ("date", Cell.str "01/02/2024"), ("competition", Cell.str "World Cup"),
   ("dob", Cell.str "05/10/1995")]

/-- The spec's example sheet: `"Team A"` with the one row above. -/
def teamASheet : Sheet := ⟨"Team A", requiredColumns, [janeRow]⟩

/-- A row whose `name` cell is blank (NaN after `pd.read_excel`). -/
def blankNameRow : Row :=
  [("number", Cell.str "4"), ("proposed-class", Cell.str "1.0"),
   ("name", Cell.na), ("country", Cell.str "USA"),
   ("date", Cell.str "01/02/2024"), ("competition", Cell.str "World Cup"),
   ("dob", Cell.str "05/10/1995")]

/-- A sheet that misses required columns (only `number` and `name`). -/
def badColumnsSheet : Sheet := ⟨"Bad", ["number", "name"], [janeRow]⟩

/-- The serialized Worksheet PDF the pipeline produces for `janeRow`. -/
def janeWorksheetPdf : PdfBytes :=
  saveDoc (setNeedAppearancesRoot
    (fillLoop (openDoc (saveDoc worksheetTemplateDoc)) (fieldValuesWorksheet janeRow)).1)

/-- The serialized Assessment PDF the pipeline produces for `janeRow`. -/
def janeAssessmentPdf : PdfBytes :=
  saveDoc (setNeedAppearancesRoot
    (fillLoop (openDoc (saveDoc assessmentTemplateDoc)) (fieldValuesAssessment janeRow)).1)

/-! ### Spec-side definitions -/

/-- A date within the bounds this development reasons about: calendar
day and month, and a year in the range the program's spreadsheets carry. -/
def validPDate (d : PDate) : Prop :=
  1 ≤ d.day ∧ d.day ≤ 31 ∧ 1 ≤ d.month ∧ d.month ≤ 12 ∧
    1900 ≤ d.year ∧ d.year < 2100

instance (d : PDate) : Decidable (validPDate d) := by
  unfold validPDate
  infer_instance

/-- Modelled from the spec: "Date fields are rendered as DD-MM-YYYY" --
the zero-padded two-digit day, dash, two-digit month, dash, four-digit
year. Built independently of `format_date`'s padding helpers: a
two-digit zero-padded numeral is the decimal numeral of `100 + n`
without its leading `1`, and likewise for four digits. -/
def specRenderDDMMYYYY (d : PDate) : String :=
  (toString (100 + d.day)).drop 1 ++ "-" ++ (toString (100 + d.month)).drop 1 ++
    "-" ++ (toString (10000 + d.year)).drop 1

/-! ## Supporting lemmas -/

/-- The filling loop emits no warnings: the `st.warning` in its missing-
field branch is commented out (app.py lines 84-85). -/
theorem fillLoop_warnings : ∀ (fvs : List (String × String)) (pdf : Doc),
    (fillLoop pdf fvs).2 = []
  | [], _ => rfl
  | p :: rest, pdf => by
    unfold fillLoop
    split
    · exact fillLoop_warnings rest _
    · exact fillLoop_warnings rest _

/-- Rewriting one field's value does not change the field-name set. -/
theorem fieldNames_setFieldVal (d : Doc) (name v : String) :
    fieldNames (setFieldVal d name v) = fieldNames d := by
  obtain ⟨af⟩ := d
  cases af with
  | none => rfl
  | some f =>
    simp only [setFieldVal, fieldNames, List.map_map]
    apply List.map_congr_left
    intro p _
    by_cases h : p.1 = name <;> simp [h]

/-- `setNeedAppearancesRoot` always produces a form root whose
`NeedAppearances` is true, keeping the fields. -/
theorem setNeedAppearancesRoot_eq (d : Doc) :
    setNeedAppearancesRoot d = ⟨some ⟨true, resolvedFields d⟩⟩ := by
  obtain ⟨af⟩ := d
  cases af <;> rfl

/-- Entries of the value map whose names match no form field are no-ops
for the filling loop. -/
theorem fillLoop_filter : ∀ (fvs : List (String × String)) (pdf : Doc),
    fillLoop pdf fvs =
      fillLoop pdf (fvs.filter fun p => (fieldNames pdf).contains p.1)
  | [], _ => rfl
  | p :: rest, pdf => by
    by_cases h : p.1 ∈ fieldNames pdf
    · have hl : fillLoop pdf (p :: rest) = fillLoop (setFieldVal pdf p.1 p.2) rest := by
        simp [fillLoop, h]
      have hr : fillLoop pdf (p :: List.filter (fun q => (fieldNames pdf).contains q.1) rest) =
          fillLoop (setFieldVal pdf p.1 p.2)
            (List.filter (fun q => (fieldNames pdf).contains q.1) rest) := by
        simp [fillLoop, h]
      rw [List.filter_cons_of_pos (by simpa using h), hl, hr,
        fillLoop_filter rest (setFieldVal pdf p.1 p.2), fieldNames_setFieldVal]
    · have hl : fillLoop pdf (p :: rest) = fillLoop pdf rest := by
        simp [fillLoop, h]
      rw [List.filter_cons_of_neg (by simpa using h), hl]
      exact fillLoop_filter rest pdf

/-! ## Claims -/

/-- Claim C1 (code bug, evaluated at the failing input): one sheet with
one valid row, the Worksheet fill succeeding and the Assessment fill
raising (its template has no `/AcroForm`). The completed-unit counter
ends at 3 while the denominator fixed beforehand is 2: the `except`
branch adds 2 on top of the 1 already counted for the written Worksheet,
so the counter advances by 3 for this row and overshoots `2R`. -/
theorem progressCounterOvercount :
    (runBatch worksheetTemplateDoc noFormDoc [teamASheet]).1.state.generatedPdfsCount = 3 ∧
    (runBatch worksheetTemplateDoc noFormDoc [teamASheet]).2 = 2 ∧
    (runBatch worksheetTemplateDoc noFormDoc [teamASheet]).2 <
      (runBatch worksheetTemplateDoc noFormDoc [teamASheet]).1.state.generatedPdfsCount := by
  decide

/-- Claim C3 (counterexample): on a document with no form root
dictionary, filling does not succeed and does not create the root; it
fails with the wrapped no-AcroForm error (app.py line 65 raises before
the creation branch at lines 91-95 can run). -/
theorem noAcroFormFillFails :
    fill_and_get_pdf_bytes noFormDoc [] =
      Except.error
        "Failed to fill PDF: PDF does not contain an AcroForm dictionary for form fields." := by
  rfl

/-- Claim C3 (amended): when the template has a form root, filling
succeeds for every value map -- matching or not -- and the serialized
output's form root carries `NeedAppearances = true`; when the template
has no form root, filling fails with the no-AcroForm error instead of
creating the root. -/
theorem needAppearancesAlwaysSet (tmpl : Doc) (field_values : List (String × String)) :
    (∀ af, tmpl.acroForm = some af →
      fill_and_get_pdf_bytes tmpl field_values =
        Except.ok (⟨⟨some ⟨true, resolvedFields (fillLoop tmpl field_values).1⟩⟩⟩, [])) ∧
    (tmpl.acroForm = none →
      fill_and_get_pdf_bytes tmpl field_values =
        Except.error
          "Failed to fill PDF: PDF does not contain an AcroForm dictionary for form fields.") := by
  constructor
  · intro af haf
    unfold fill_and_get_pdf_bytes
    simp only [openDoc, saveDoc, haf, Option.isNone_some, if_false, Bool.false_eq_true]
    rw [fillLoop_warnings, setNeedAppearancesRoot_eq]
  · intro hn
    unfold fill_and_get_pdf_bytes
    simp [openDoc, saveDoc, hn]

/-- Claim C3 (witness): the amended theorem at concrete inputs -- a
Worksheet template with an unmatched-only value map serializes with the
flag set, and the form-less document fails. -/
theorem needAppearancesAlwaysSet_w :
    fill_and_get_pdf_bytes worksheetTemplateDoc [("missing-field", "v")] =
      Except.ok (⟨⟨some ⟨true, resolvedFields (fillLoop worksheetTemplateDoc [("missing-field", "v")]).1⟩⟩⟩, []) ∧
    fill_and_get_pdf_bytes noFormDoc [("missing-field", "v")] =
      Except.error
        "Failed to fill PDF: PDF does not contain an AcroForm dictionary for form fields." :=
  ⟨(needAppearancesAlwaysSet worksheetTemplateDoc [("missing-field", "v")]).1 _ rfl,
   (needAppearancesAlwaysSet noFormDoc [("missing-field", "v")]).2 rfl⟩

/-- Claim C4 (counterexample): a value map whose only name matches no
form field of the Worksheet template. The fill succeeds, the document's
field values are untouched -- but the warning list is empty: no soft
warning identifying the missing name is reported, because the reporting
line is commented out in the source. -/
theorem missingFieldNoWarning :
    fill_and_get_pdf_bytes worksheetTemplateDoc [("missing-field", "v")] =
      Except.ok (saveDoc (setNeedAppearancesRoot worksheetTemplateDoc), []) := by
  rfl

/-- Claim C4 (amended): a field name of the value map that is not among
the document's form fields leaves the document entirely unaltered for
that name -- filling with the value map is the same as filling with the
map restricted to the matching names -- and produces no warning and no
error (the soft warning of the spec is not reported: it is commented
out at app.py lines 84-85). -/
theorem unmatchedFieldsSilentlySkipped (pdf_template_obj : Doc)
    (field_values : List (String × String)) :
    fill_and_get_pdf_bytes pdf_template_obj field_values =
      fill_and_get_pdf_bytes pdf_template_obj
        (field_values.filter fun p => (fieldNames pdf_template_obj).contains p.1) ∧
    (∀ wb ws, fill_and_get_pdf_bytes pdf_template_obj field_values =
      Except.ok (wb, ws) → ws = []) := by
  constructor
  · unfold fill_and_get_pdf_bytes
    simp only [openDoc, saveDoc]
    split
    · rfl
    · rw [fillLoop_filter field_values pdf_template_obj]
  · intro wb ws h
    by_cases hn : (openDoc (saveDoc pdf_template_obj)).acroForm.isNone
    · simp [fill_and_get_pdf_bytes, hn] at h
    · simp [fill_and_get_pdf_bytes, hn] at h
      rw [← h.2, fillLoop_warnings]

/-- Claim C5: a row whose `name` or `number` cell is NaN is recorded as
a skip (one message appended to the failure list), no document is
generated (the archive is unchanged), and the counter advances by
exactly 2. -/
theorem skipRowRecordedAdvancesTwo (wsTemplate asTemplate : Doc) (sheet : String)
    (idx : Nat) (row : Row) (st : BatchState)
    (h : isna (rowGetD row "name" Cell.na) = true ∨
         isna (rowGetD row "number" Cell.na) = true) :
    processRow wsTemplate asTemplate sheet idx row st =
      { st with
          failedItems := st.failedItems ++ [skipMessage idx (playerNameOf row) sheet],
          generatedPdfsCount := st.generatedPdfsCount + 2 } := by
  unfold processRow
  rcases h with h | h <;> simp [h]

/-- Claim C5 (witness): the skip branch at a concrete blank-`name` row. -/
theorem skipRowRecordedAdvancesTwo_w :
    processRow worksheetTemplateDoc assessmentTemplateDoc "Team A" 0 blankNameRow initialState =
      { initialState with
          failedItems := [skipMessage 0 "nan" "Team A"],
          generatedPdfsCount := 2 } := by
  have h := skipRowRecordedAdvancesTwo worksheetTemplateDoc assessmentTemplateDoc
    "Team A" 0 blankNameRow initialState (Or.inl (by decide))
  simpa using h

/-- Claim C6 (counterexample): at the spec's example input the archive
holds both PDFs at the claimed paths, but the Worksheet's `date` field
is `"02-01-2024"` -- not `"01-02-2024"` -- and the Assessment's `dob`
field is `"10-05-1995"` -- not `"05-10-1995"`: `pd.to_datetime` reads
the ambiguous slash dates month-first. -/
theorem scenarioDateFieldsSwapped :
    (archiveLookup (runBatch worksheetTemplateDoc assessmentTemplateDoc [teamASheet]).1.state.archive
        (worksheetPath "Team A" "Jane Doe")).map (fun b => pdfFieldValue b "date") =
      some (some "02-01-2024") ∧
    (archiveLookup (runBatch worksheetTemplateDoc assessmentTemplateDoc [teamASheet]).1.state.archive
        (assessmentPath "Team A" "Jane Doe")).map (fun b => pdfFieldValue b "dob") =
      some (some "10-05-1995") ∧
    ("02-01-2024" : String) ≠ "01-02-2024" ∧
    ("10-05-1995" : String) ≠ "05-10-1995" := by
  decide

/-- Claim C6 (amended, general part): a valid row whose two fills
succeed adds exactly its two archive entries -- the Worksheet under
`{sheet}/Stages 2C and 3/{name}-Worksheet-Stages-2C-and-3.pdf` and the
Assessment under `{sheet}/Stages 2AB/{name}-Assessment-Form-Stages-2AB.pdf`
-- appends nothing to the failure list, and advances the counter by 2. -/
theorem validRowTwoEntries (wsTemplate asTemplate : Doc) (sheet : String)
    (idx : Nat) (row : Row) (st : BatchState) (wb : PdfBytes) (ws : List String)
    (ab : PdfBytes) (as2 : List String)
    (hname : isna (rowGetD row "name" Cell.na) = false)
    (hnum : isna (rowGetD row "number" Cell.na) = false)
    (hw : fill_and_get_pdf_bytes wsTemplate (fieldValuesWorksheet row) = Except.ok (wb, ws))
    (ha : fill_and_get_pdf_bytes asTemplate (fieldValuesAssessment row) = Except.ok (ab, as2)) :
    processRow wsTemplate asTemplate sheet idx row st =
      { st with
          archive := st.archive ++
            [(worksheetPath sheet (playerNameOf row), wb),
             (assessmentPath sheet (playerNameOf row), ab)],
          generatedPdfsCount := st.generatedPdfsCount + 2 } := by
  unfold processRow
  simp [hname, hnum, hw, ha]

/-- Claim C6 (witness): the amended theorem at the spec's example
input, with the corrected field renderings -- `date` is `"02-01-2024"`,
`dob` is `"10-05-1995"` -- and an empty failure list for the whole run. -/
theorem validRowTwoEntries_w :
    processRow worksheetTemplateDoc assessmentTemplateDoc "Team A" 0 janeRow initialState =
      { initialState with
          archive := [(worksheetPath "Team A" "Jane Doe", janeWorksheetPdf),
                      (assessmentPath "Team A" "Jane Doe", janeAssessmentPdf)],
          generatedPdfsCount := 2 } ∧
    pdfFieldValue janeWorksheetPdf "date" = some "02-01-2024" ∧
    pdfFieldValue janeAssessmentPdf "dob" = some "10-05-1995" ∧
    (runBatch worksheetTemplateDoc assessmentTemplateDoc [teamASheet]).1.state.failedItems = [] := by
  refine ⟨?_, by decide, by decide, by decide⟩
  have h := validRowTwoEntries worksheetTemplateDoc assessmentTemplateDoc "Team A" 0
    janeRow initialState janeWorksheetPdf [] janeAssessmentPdf []
    (by decide) (by decide) rfl rfl
  rw [h]
  decide

/-- Claim C10: a row whose Worksheet fill succeeds and whose Assessment
fill raises leaves exactly the Worksheet entry in the archive while the
row is recorded in the failure list (and the counter advances by 3: 1
for the written Worksheet, then 2 in the `except` branch). -/
theorem mixedRowWorksheetPersists (wsTemplate asTemplate : Doc) (sheet : String)
    (idx : Nat) (row : Row) (st : BatchState) (wb : PdfBytes) (ws : List String)
    (e : String)
    (hname : isna (rowGetD row "name" Cell.na) = false)
    (hnum : isna (rowGetD row "number" Cell.na) = false)
    (hw : fill_and_get_pdf_bytes wsTemplate (fieldValuesWorksheet row) = Except.ok (wb, ws))
    (ha : fill_and_get_pdf_bytes asTemplate (fieldValuesAssessment row) = Except.error e) :
    processRow wsTemplate asTemplate sheet idx row st =
      { st with
          archive := st.archive ++ [(worksheetPath sheet (playerNameOf row), wb)],
          failedItems := st.failedItems ++ [errorMessage (playerNameOf row) sheet e],
          generatedPdfsCount := st.generatedPdfsCount + 3 } := by
  unfold processRow
  simp [hname, hnum, hw, ha]

/-- Claim C10 (witness): the mixed outcome at a concrete input -- the
Worksheet PDF stays in the archive, the failure message records the row. -/
theorem mixedRowWorksheetPersists_w :
    processRow worksheetTemplateDoc noFormDoc "Team A" 0 janeRow initialState =
      { initialState with
          archive := [(worksheetPath "Team A" "Jane Doe", janeWorksheetPdf)],
          failedItems := [errorMessage "Jane Doe" "Team A"
            "Failed to fill PDF: PDF does not contain an AcroForm dictionary for form fields."],
          generatedPdfsCount := 3 } := by
  have h := mixedRowWorksheetPersists worksheetTemplateDoc noFormDoc "Team A" 0
    janeRow initialState janeWorksheetPdf []
    "Failed to fill PDF: PDF does not contain an AcroForm dictionary for form fields."
    (by decide) (by decide) rfl rfl
  rw [h]
  decide

/-- Processing one row only appends to the archive. -/
theorem processRow_archive_extends (wsTemplate asTemplate : Doc) (sheet : String)
    (idx : Nat) (row : Row) (st : BatchState) :
    ∃ ext, (processRow wsTemplate asTemplate sheet idx row st).archive =
      st.archive ++ ext := by
  unfold processRow
  split
  · exact ⟨[], by simp⟩
  · cases hw : fill_and_get_pdf_bytes wsTemplate (fieldValuesWorksheet row) with
    | error e => exact ⟨[], by simp [hw]⟩
    | ok wres =>
      cases ha : fill_and_get_pdf_bytes asTemplate (fieldValuesAssessment row) with
      | error e =>
        exact ⟨[(worksheetPath sheet (playerNameOf row), wres.1)], by simp [hw, ha]⟩
      | ok ares =>
        exact ⟨[(worksheetPath sheet (playerNameOf row), wres.1),
                (assessmentPath sheet (playerNameOf row), ares.1)], by simp [hw, ha]⟩

/-- Processing a list of rows only appends to the archive. -/
theorem processRows_archive_extends (wsTemplate asTemplate : Doc) (sheet : String) :
    ∀ (rows : List Row) (idx : Nat) (st : BatchState),
      ∃ ext, (processRows wsTemplate asTemplate sheet idx rows st).archive =
        st.archive ++ ext
  | [], _, st => ⟨[], by simp [processRows]⟩
  | r :: rest, idx, st => by
    obtain ⟨e1, h1⟩ := processRow_archive_extends wsTemplate asTemplate sheet idx r st
    obtain ⟨e2, h2⟩ := processRows_archive_extends wsTemplate asTemplate sheet rest (idx + 1)
      (processRow wsTemplate asTemplate sheet idx r st)
    exact ⟨e1 ++ e2, by simp [processRows, h2, h1]⟩

/-- Claim C2: a row on which filling either document raises is caught,
one failure message naming the player, the sheet and the cause is
appended, and the `except` branch accounts the row's two document
attempts in the counter (2 when the first fill raised, 2 on top of the
already-counted Worksheet unit when the second did); the loop then
continues: the remaining rows are processed exactly as they would be
from the resulting state, and that later processing only ever appends
to the archive the failed row left behind. -/
theorem rowFailureIsolated (wsTemplate asTemplate : Doc) (sheet : String)
    (idx : Nat) (row : Row) (rest : List Row) (st : BatchState)
    (hname : isna (rowGetD row "name" Cell.na) = false)
    (hnum : isna (rowGetD row "number" Cell.na) = false)
    (hfail : (∃ e, fill_and_get_pdf_bytes wsTemplate (fieldValuesWorksheet row) =
                Except.error e) ∨
             (∃ wb ws e,
                fill_and_get_pdf_bytes wsTemplate (fieldValuesWorksheet row) =
                  Except.ok (wb, ws) ∧
                fill_and_get_pdf_bytes asTemplate (fieldValuesAssessment row) =
                  Except.error e)) :
    (∃ e, (processRow wsTemplate asTemplate sheet idx row st).failedItems =
        st.failedItems ++ [errorMessage (playerNameOf row) sheet e]) ∧
    ((processRow wsTemplate asTemplate sheet idx row st).generatedPdfsCount =
        st.generatedPdfsCount + 2 ∨
     (processRow wsTemplate asTemplate sheet idx row st).generatedPdfsCount =
        st.generatedPdfsCount + 3) ∧
    processRows wsTemplate asTemplate sheet idx (row :: rest) st =
      processRows wsTemplate asTemplate sheet (idx + 1) rest
        (processRow wsTemplate asTemplate sheet idx row st) ∧
    (∃ ext, (processRows wsTemplate asTemplate sheet (idx + 1) rest
        (processRow wsTemplate asTemplate sheet idx row st)).archive =
      (processRow wsTemplate asTemplate sheet idx row st).archive ++ ext) := by
  refine ⟨?_, ?_, by simp [processRows],
    processRows_archive_extends wsTemplate asTemplate sheet rest (idx + 1) _⟩
  · rcases hfail with ⟨e, he⟩ | ⟨wb, ws, e, hw, ha⟩
    · exact ⟨e, by unfold processRow; simp [hname, hnum, he]⟩
    · exact ⟨e, by unfold processRow; simp [hname, hnum, hw, ha]⟩
  · rcases hfail with ⟨e, he⟩ | ⟨wb, ws, e, hw, ha⟩
    · exact Or.inl (by unfold processRow; simp [hname, hnum, he])
    · exact Or.inr (by unfold processRow; simp [hname, hnum, hw, ha])

/-- Claim C2 (witness): the failing row and a subsequent row at concrete
inputs -- the failure is recorded, the next row still gets processed. -/
theorem rowFailureIsolated_w :
    (∃ e, (processRow worksheetTemplateDoc noFormDoc "Team A" 0 janeRow initialState).failedItems =
        initialState.failedItems ++ [errorMessage (playerNameOf janeRow) "Team A" e]) ∧
    ((processRow worksheetTemplateDoc noFormDoc "Team A" 0 janeRow initialState).generatedPdfsCount =
        initialState.generatedPdfsCount + 2 ∨
     (processRow worksheetTemplateDoc noFormDoc "Team A" 0 janeRow initialState).generatedPdfsCount =
        initialState.generatedPdfsCount + 3) ∧
    processRows worksheetTemplateDoc noFormDoc "Team A" 0 [janeRow, janeRow] initialState =
      processRows worksheetTemplateDoc noFormDoc "Team A" 1 [janeRow]
        (processRow worksheetTemplateDoc noFormDoc "Team A" 0 janeRow initialState) ∧
    (∃ ext, (processRows worksheetTemplateDoc noFormDoc "Team A" 1 [janeRow]
        (processRow worksheetTemplateDoc noFormDoc "Team A" 0 janeRow initialState)).archive =
      (processRow worksheetTemplateDoc noFormDoc "Team A" 0 janeRow initialState).archive ++ ext) :=
  rowFailureIsolated worksheetTemplateDoc noFormDoc "Team A" 0 janeRow [janeRow]
    initialState (by decide) (by decide)
    (Or.inr ⟨janeWorksheetPdf, [],
      "Failed to fill PDF: PDF does not contain an AcroForm dictionary for form fields.",
      rfl, rfl⟩)

/-- A sheet that passes column validation hands the loop its rows and
moves on to the remaining sheets. -/
theorem runSheets_valid_cons (wsTemplate asTemplate : Doc) (sh : Sheet)
    (rest : List Sheet) (st : BatchState) (h : validColumns sh = true) :
    runSheets wsTemplate asTemplate (sh :: rest) st =
      runSheets wsTemplate asTemplate rest
        (processRows wsTemplate asTemplate sh.sheetName 0 sh.rows st) := by
  simp [runSheets, h]

/-- Claim C8: a sheet missing a required column aborts the whole run at
the validation step -- the result is the state accumulated over the
earlier (valid) sheets, before any row of the offending sheet was
processed, and nothing after that sheet is touched. -/
theorem schemaErrorAbortsBeforeRows (wsTemplate asTemplate : Doc)
    (pre : List Sheet) (sh : Sheet) (rest : List Sheet) (st : BatchState)
    (hpre : ∀ p ∈ pre, validColumns p = true)
    (hsh : validColumns sh = false) :
    runSheets wsTemplate asTemplate (pre ++ sh :: rest) st =
      ⟨List.foldl
        (fun acc s2 => processRows wsTemplate asTemplate s2.sheetName 0 s2.rows acc)
        st pre,
       some sh.sheetName⟩ := by
  induction pre generalizing st with
  | nil => simp [runSheets, hsh]
  | cons p ps ih =>
    rw [List.cons_append,
      runSheets_valid_cons wsTemplate asTemplate p (ps ++ sh :: rest) st
        (hpre p (List.mem_cons_self p ps)),
      ih _ (fun q hq => hpre q (List.mem_cons_of_mem p hq))]
    simp

/-- Claim C8 (witness): a run over a valid sheet followed by a sheet
missing columns aborts at the second sheet, the first fully processed. -/
theorem schemaErrorAbortsBeforeRows_w :
    runSheets worksheetTemplateDoc assessmentTemplateDoc [teamASheet, badColumnsSheet] initialState =
      ⟨processRows worksheetTemplateDoc assessmentTemplateDoc "Team A" 0 [janeRow] initialState,
       some "Bad"⟩ := by
  have h := schemaErrorAbortsBeforeRows worksheetTemplateDoc assessmentTemplateDoc
    [teamASheet] badColumnsSheet [] initialState (by decide) (by decide)
  simpa [teamASheet, badColumnsSheet] using h

set_option maxRecDepth 8000 in
/-- A zero-padded two-digit numeral is the decimal numeral of `100 + n`
without its leading `1`. -/
theorem pad2_shift : ∀ n < 100, pad2 n = (toString (100 + n)).drop 1 := by
  decide

set_option maxRecDepth 16000 in
/-- A zero-padded four-digit numeral of a year in `1900..2099` is the
decimal numeral of `10000 + year` without its leading `1`. -/
theorem pad4_shift : ∀ k < 200, pad4 (1900 + k) = (toString (10000 + (1900 + k))).drop 1 := by
  decide

/-- Claim C7: when the cell parses as a date (within the development's
date bounds) the rendered value is the zero-padded `DD-MM-YYYY` form of
that date; when it does not parse, the raw textual form of the cell is
passed through unchanged -- `format_date` is total, no error escapes. -/
theorem formatDateBranches (c : Cell) :
    (∀ d, pdToDatetime c = some d → validPDate d →
      format_date c = specRenderDDMMYYYY d) ∧
    (pdToDatetime c = none → format_date c = cellStr c) := by
  constructor
  · intro d hd hv
    unfold validPDate at hv
    obtain ⟨h1, h2, h3, h4, h5, h6⟩ := hv
    have hf : format_date c = pad2 d.day ++ "-" ++ pad2 d.month ++ "-" ++ pad4 d.year := by
      unfold format_date
      rw [hd]
    rw [hf]
    unfold specRenderDDMMYYYY
    rw [pad2_shift d.day (by omega), pad2_shift d.month (by omega)]
    have hy : d.year = 1900 + (d.year - 1900) := by omega
    rw [hy, pad4_shift (d.year - 1900) (by omega)]
  · intro h
    unfold format_date
    rw [h]

/-- Claim C7 (witness): the parse branch at the scenario's `date` string
(month-first: 2 January 2024) and the fallback branch at a non-date. -/
theorem formatDateBranches_w :
    format_date (Cell.str "01/02/2024") = specRenderDDMMYYYY ⟨2, 1, 2024⟩ ∧
    format_date (Cell.str "World Cup") = cellStr (Cell.str "World Cup") :=
  ⟨(formatDateBranches (Cell.str "01/02/2024")).1 ⟨2, 1, 2024⟩ (by decide) (by decide),
   (formatDateBranches (Cell.str "World Cup")).2 (by decide)⟩

/-- Writing one heap location leaves every other location unchanged. -/
theorem storeGet_set_ne (s : DocStore) (i j : Nat) (d : Doc) (h : i ≠ j) :
    storeGet (storeSet s i d) j = storeGet s j := by
  simp [storeGet, storeSet, List.getElem?_set_ne h]

/-- The filling loop's heap mutations stay on the clone's location. -/
theorem foldl_fillStep_get (cid tid : Nat) (h : tid ≠ cid) :
    ∀ (fvs : List (String × String)) (s : DocStore),
      storeGet (List.foldl (fillStep cid) s fvs) tid = storeGet s tid
  | [], _ => rfl
  | p :: rest, s => by
    rw [List.foldl_cons, foldl_fillStep_get cid tid h rest (fillStep cid s p)]
    unfold fillStep
    split
    · rfl
    · split
      · exact storeGet_set_ne _ _ _ _ (Ne.symm h)
      · rfl

/-- One fill call never changes what is stored at the template location:
the clone is appended at a fresh location and all writes target it. -/
theorem fillInStore_preserves (s : DocStore) (tid : Nat)
    (fvs : List (String × String)) :
    storeGet (fillInStore s tid fvs).1 tid = storeGet s tid := by
  cases hg : storeGet s tid with
  | none => simp [fillInStore, hg]
  | some tmpl =>
    have hlt : tid < s.docs.length := by
      by_contra hge
      have hnone : s.docs[tid]? = none := List.getElem?_eq_none (by omega)
      rw [storeGet, hnone] at hg
      cases hg
    have hne : tid ≠ s.docs.length := by omega
    have happ : storeGet ⟨s.docs ++ [openDoc (saveDoc tmpl)]⟩ tid = some tmpl := by
      rw [← hg]
      simp [storeGet, List.getElem?_append, hlt]
    have h2 : storeGet
        (List.foldl (fillStep s.docs.length) ⟨s.docs ++ [openDoc (saveDoc tmpl)]⟩ fvs)
        tid = some tmpl := by
      rw [foldl_fillStep_get s.docs.length tid hne fvs _]
      exact happ
    simp only [fillInStore, hg]
    split
    · exact happ
    · split
      · exact h2
      · rw [storeGet_set_ne _ _ _ _ (Ne.symm hne)]
        exact h2

/-- Claim C9: any number of fills against the same cached template
location leave the template exactly as it was -- the document stored
there, and in particular the field values one resolves on it, are
unchanged: every fill mutates only its own fresh clone. -/
theorem templateUnchangedByFills (s : DocStore) (tid : Nat)
    (fvss : List (List (String × String))) :
    storeGet (fillRepeatedly tid fvss s) tid = storeGet s tid ∧
    (storeGet (fillRepeatedly tid fvss s) tid).map resolvedFields =
      (storeGet s tid).map resolvedFields := by
  have main : ∀ (l : List (List (String × String))) (s2 : DocStore),
      storeGet (fillRepeatedly tid l s2) tid = storeGet s2 tid := by
    intro l
    induction l with
    | nil => intro s2; rfl
    | cons fvs rest ih =>
      intro s2
      rw [show fillRepeatedly tid (fvs :: rest) s2 =
        fillRepeatedly tid rest (fillInStore s2 tid fvs).1 from rfl,
        ih, fillInStore_preserves]
  exact ⟨main fvss s, by rw [main fvss s]⟩

/-- The heap filling loop computes, at the clone's location, exactly
what the functional filling loop computes. -/
theorem foldl_fillStep_at_cid (cid : Nat) :
    ∀ (fvs : List (String × String)) (s : DocStore) (d : Doc),
      storeGet s cid = some d →
      storeGet (List.foldl (fillStep cid) s fvs) cid = some (fillLoop d fvs).1
  | [], _, _, hg => by simpa [fillLoop] using hg
  | p :: rest, s, d, hg => by
    have hlt : cid < s.docs.length := by
      by_contra hge
      have hnone : s.docs[cid]? = none := List.getElem?_eq_none (by omega)
      rw [storeGet, hnone] at hg
      cases hg
    by_cases hc : p.1 ∈ fieldNames d
    · have hstep : fillStep cid s p = storeSet s cid (setFieldVal d p.1 p.2) := by
        simp [fillStep, hg, hc]
      have hg2 : storeGet (storeSet s cid (setFieldVal d p.1 p.2)) cid =
          some (setFieldVal d p.1 p.2) := by
        show (s.docs.set cid (setFieldVal d p.1 p.2))[cid]? = _
        exact List.getElem?_set_eq_of_lt _ hlt
      rw [List.foldl_cons, hstep,
        foldl_fillStep_at_cid cid rest (storeSet s cid (setFieldVal d p.1 p.2))
          (setFieldVal d p.1 p.2) hg2]
      simp [fillLoop, hc]
    · have hstep : fillStep cid s p = s := by
        simp [fillStep, hg, hc]
      rw [List.foldl_cons, hstep, foldl_fillStep_at_cid cid rest s d hg]
      simp [fillLoop, hc]

/-- The heap re-embedding agrees with `fill_and_get_pdf_bytes`: filling
against a stored template returns exactly what the functional embedding
returns for that template. -/
theorem fillInStore_refines_fill (s : DocStore) (tid : Nat) (tmpl : Doc)
    (fvs : List (String × String)) (hg : storeGet s tid = some tmpl) :
    (fillInStore s tid fvs).2 = fill_and_get_pdf_bytes tmpl fvs := by
  simp only [fillInStore, hg]
  by_cases hn : (openDoc (saveDoc tmpl)).acroForm.isNone
  · simp [fill_and_get_pdf_bytes, hn]
  · have hcid : storeGet ⟨s.docs ++ [openDoc (saveDoc tmpl)]⟩ s.docs.length =
        some (openDoc (saveDoc tmpl)) := by
      simp [storeGet, List.getElem?_append]
    have hfold := foldl_fillStep_at_cid s.docs.length fvs
      ⟨s.docs ++ [openDoc (saveDoc tmpl)]⟩ (openDoc (saveDoc tmpl)) hcid
    simp [hn, hfold, fill_and_get_pdf_bytes, fillLoop_warnings]
